import Mathlib

/-
Shallow embedding of the hydraulic erosion engine in
src/lib/erosion-physics.ts (class ErosionSystem).

Modelling conventions:
  * Float32 numbers are modelled by exact rationals.
  * A Float32Array is modelled by a List of rationals.  Reads use a
    total getter (default 0 for an out-of-range index); writes use
    List.set, which is a no-op out of range, matching the behaviour of
    JavaScript typed arrays (out-of-range writes are ignored).
  * All fields of the engine have length width*height by construction;
    loops of the form (for i < size) that write field[i] in place are
    modelled by rebuilding the list of length size, and loops of the
    form (for i < field.length) by rebuilding a list of the same length.
    In-place per-cell loops that only read entries the current iteration
    has not yet written (computeFlux, updateWaterAndVelocity read old
    flux and water only at the cell itself, and the buffered phases
    transportSediment and smoothTerrain read only the frozen copy) are
    modelled as pointwise maps; the one loop that reads values written
    by earlier iterations of the same loop (erosionDeposition, whose
    gradient reads already-updated terrain neighbours) is modelled as a
    left fold in loop order.
  * Division by zero in the rationals yields 0 (Lean convention) where
    JavaScript would produce Infinity or NaN; the only division sites
    are guarded in the source (velocity) or multiplied against a zero
    numerator in the cases the theorems below rely on.
  * Math.sqrt is modelled by Rat.sqrt, which is exact on squares of
    rationals; every concrete evaluation below only takes square roots
    of exact squares, and no theorem depends on other values of it.
-/

-- The Batteries rational arithmetic definitions are irreducible, which
-- blocks kernel evaluation of concrete states; restore semireducibility
-- so that closed simulation runs can be settled by decide.
set_option allowUnsafeReducibility true in
attribute [semireducible] Rat.mul Rat.inv Rat.add Rat.sub Rat.ofScientific

namespace StreamTrailer

/-- Total read of a field, default 0 out of range (src: map[idx]). -/
def fget (l : List ℚ) (i : Nat) : ℚ := l.getD i 0

/-- Rebuild a field of length n from a per-index formula. -/
def buildField (n : Nat) (f : Nat → ℚ) : List ℚ := (List.range n).map f

-- Constants of the engine (src/lib/erosion-physics.ts, lines 23-32).
def GRAVITY : ℚ := 9.81
def PIPE_LENGTH : ℚ := 1.0
def CELL_AREA : ℚ := 1.0
def KC : ℚ := 0.5
def KS : ℚ := 0.3
def KD : ℚ := 0.2
def KE : ℚ := 0.025
def K_SMOOTH : ℚ := 0.5

/-- The mutable state owned by class ErosionSystem. -/
structure ErosionState where
  width : Nat
  height : Nat
  waterHeight : List ℚ
  sediment : List ℚ
  fluxL : List ℚ
  fluxR : List ℚ
  fluxT : List ℚ
  fluxB : List ℚ
  velocityX : List ℚ
  velocityY : List ℚ

/-- The freshly constructed engine: all fields zero (constructor). -/
def mkState (w h : Nat) : ErosionState where
  width := w
  height := h
  waterHeight := List.replicate (w * h) 0
  sediment := List.replicate (w * h) 0
  fluxL := List.replicate (w * h) 0
  fluxR := List.replicate (w * h) 0
  fluxT := List.replicate (w * h) 0
  fluxB := List.replicate (w * h) 0
  velocityX := List.replicate (w * h) 0
  velocityY := List.replicate (w * h) 0

/-- Phase 1, addWater (lines 134-159).  Source rectangle of width 4
starting at startX = floor((width-4)/2), rows startY=2 and startY+1.
Indices are computed in Int because startX is negative when width < 4;
a write at a negative or too large index is a no-op (typed array). -/
def addWater (s : ErosionState) (dt flowRate : ℚ) (isRaining : Bool) :
    ErosionState :=
  if isRaining then
    let sourceWidth : Int := 4
    let startX : Int := Int.fdiv ((s.width : Int) - sourceWidth) 2
    let startY : Int := 2
    { s with waterHeight :=
        (List.range 2).foldl (fun acc dy =>
          (List.range 4).foldl (fun w2 dx =>
            let idx : Int := (startY + dy) * (s.width : Int) + (startX + dx)
            if 0 ≤ idx ∧ idx < (w2.length : Int) then
              w2.set idx.toNat (fget w2 idx.toNat + flowRate * dt * 10.0)
            else w2) acc) s.waterHeight }
  else s

/-- Per-cell body of computeFlux (lines 161-222): the four outgoing
fluxes (L, R, T, B) of cell i after the update and the rescaling. -/
def fluxCell (s : ErosionState) (terrain : List ℚ) (dt : ℚ) (i : Nat) :
    ℚ × ℚ × ℚ × ℚ :=
  let x := i % s.width
  let y := i / s.width
  if x ≤ 0 ∨ s.width - 1 ≤ x ∨ y ≤ 0 ∨ s.height - 1 ≤ y then (0, 0, 0, 0)
  else
    let h := fget terrain i + fget s.waterHeight i
    let idxL := i - 1
    let idxR := i + 1
    let idxT := i + s.width
    let idxB := i - s.width
    let hL := fget terrain idxL + fget s.waterHeight idxL
    let hR := fget terrain idxR + fget s.waterHeight idxR
    let hT := fget terrain idxT + fget s.waterHeight idxT
    let hB := fget terrain idxB + fget s.waterHeight idxB
    let valL := max 0 (h - hL)
    let valR := max 0 (h - hR)
    let valT := max 0 (h - hT)
    let valB := max 0 (h - hB)
    let factor := dt * CELL_AREA * GRAVITY / PIPE_LENGTH
    let fL := max 0 (fget s.fluxL i + factor * valL)
    let fR := max 0 (fget s.fluxR i + factor * valR)
    let fT := max 0 (fget s.fluxT i + factor * valT)
    let fB := max 0 (fget s.fluxB i + factor * valB)
    let sumFlux := fL + fR + fT + fB
    if 0 < sumFlux then
      let K := min 1 (fget s.waterHeight i * CELL_AREA / (sumFlux * dt))
      (fL * K, fR * K, fT * K, fB * K)
    else (fL, fR, fT, fB)

/-- Phase 2, computeFlux: pointwise rebuild of the four flux fields. -/
def computeFlux (s : ErosionState) (terrain : List ℚ) (dt : ℚ) :
    ErosionState :=
  let size := s.width * s.height
  { s with
    fluxL := buildField size (fun i => (fluxCell s terrain dt i).1)
    fluxR := buildField size (fun i => (fluxCell s terrain dt i).2.1)
    fluxT := buildField size (fun i => (fluxCell s terrain dt i).2.2.1)
    fluxB := buildField size (fun i => (fluxCell s terrain dt i).2.2.2) }

/-- Per-cell body of updateWaterAndVelocity (lines 225-297): the new
water height and the two velocity components of cell i.  On a boundary
cell the loop leaves water unchanged and zeroes the velocity. -/
def updateCell (s : ErosionState) (dt : ℚ) (i : Nat) : ℚ × ℚ × ℚ :=
  let x := i % s.width
  let y := i / s.width
  if x ≤ 0 ∨ s.width - 1 ≤ x ∨ y ≤ 0 ∨ s.height - 1 ≤ y then
    (fget s.waterHeight i, 0, 0)
  else
    let idxL := i - 1
    let idxR := i + 1
    let idxT := i + s.width
    let idxB := i - s.width
    let inflow := fget s.fluxR idxL + fget s.fluxL idxR +
      fget s.fluxB idxT + fget s.fluxT idxB
    let outflow := fget s.fluxL i + fget s.fluxR i +
      fget s.fluxT i + fget s.fluxB i
    let volumeChange := dt * (inflow - outflow)
    let w1 := fget s.waterHeight i + volumeChange / CELL_AREA
    let w2 := if w1 < 0 then 0 else w1
    let flowInL := fget s.fluxR idxL
    let flowOutL := fget s.fluxL i
    let flowInR := fget s.fluxL idxR
    let flowOutR := fget s.fluxR i
    let flowInT := fget s.fluxB idxT
    let flowOutT := fget s.fluxT i
    let flowInB := fget s.fluxT idxB
    let flowOutB := fget s.fluxB i
    let u := (flowInL - flowOutL + flowOutR - flowInR) / 2
    let v := (flowInB - flowOutB + flowOutT - flowInT) / 2
    let avgWaterHeight := w2
    if 0.0001 < avgWaterHeight then
      (w2, u / (CELL_AREA * avgWaterHeight) * 0.98,
        v / (CELL_AREA * avgWaterHeight) * 0.98)
    else (w2, 0, 0)

/-- Phase 3, updateWaterAndVelocity: pointwise rebuild. -/
def updateWaterAndVelocity (s : ErosionState) (dt : ℚ) : ErosionState :=
  let size := s.width * s.height
  { s with
    waterHeight := buildField size (fun i => (updateCell s dt i).1)
    velocityX := buildField size (fun i => (updateCell s dt i).2.1)
    velocityY := buildField size (fun i => (updateCell s dt i).2.2) }

/-- One iteration of the erosionDeposition loop (lines 299-362) on the
accumulator (terrainHeight, sediment).  Skips boundaries and the
drainage zone; note that for y the source test y >= height - 10 on
JavaScript numbers agrees with the Nat subtraction test because y >= 0. -/
def erodeCell (w h : Nat) (velX velY : List ℚ) (dt mult : ℚ)
    (acc : List ℚ × List ℚ) (i : Nat) : List ℚ × List ℚ :=
  let x := i % w
  let y := i / w
  if x ≤ 0 ∨ w - 1 ≤ x ∨ y ≤ 0 ∨ h - 1 ≤ y ∨ h - 10 ≤ y then acc
  else
    let terrain := acc.1
    let sed := acc.2
    let idxL := i - 1
    let idxR := i + 1
    let idxT := i + w
    let idxB := i - w
    let hC := fget terrain i
    let hL := fget terrain idxL
    let hR := fget terrain idxR
    let hT := fget terrain idxT
    let hB := fget terrain idxB
    let dHdX := (hR - hL) / (2 * CELL_AREA)
    let dHdY := (hT - hB) / (2 * CELL_AREA)
    let slope := Rat.sqrt (dHdX * dHdX + dHdY * dHdY)
    let velocity := Rat.sqrt (fget velX i * fget velX i +
      fget velY i * fget velY i)
    let capacity := max 0.01 (KC * velocity * slope * 5.0)
    let currentSediment := fget sed i
    if currentSediment < capacity then
      let erodeAmount := KS * (capacity - currentSediment) * dt * mult
      let actualErode := min erodeAmount 0.05
      let t1 := hC - actualErode
      let t2 := if t1 < 0.01 then 0.01 else t1
      (terrain.set i t2, sed.set i (currentSediment + actualErode))
    else
      let depositAmount := KD * (currentSediment - capacity) * dt
      let actualDeposit := min (min depositAmount currentSediment) 0.01
      let t1 := hC + actualDeposit
      let t2 := if 2.5 < t1 then 2.5 else t1
      (terrain.set i t2, sed.set i (currentSediment - actualDeposit))

/-- Phase 4, erosionDeposition: fold of erodeCell in loop order over the
grid; returns the updated state and the updated (caller-owned) terrain. -/
def erosionDeposition (s : ErosionState) (terrain : List ℚ)
    (dt mult : ℚ) : ErosionState × List ℚ :=
  let size := s.width * s.height
  let p := (List.range size).foldl
    (erodeCell s.width s.height s.velocityX s.velocityY dt mult)
    (terrain, s.sediment)
  ({ s with sediment := p.2 }, p.1)

/-- Bilinear sampler (lines 396-418).  Out of range means x < 0,
x >= width-1, y < 0 or y >= height-1 and yields 0. -/
def sampleBilinear (w h : Nat) (map : List ℚ) (x y : ℚ) : ℚ :=
  if x < 0 ∨ (w : ℚ) - 1 ≤ x ∨ y < 0 ∨ (h : ℚ) - 1 ≤ y then 0
  else
    let x0 : Int := Int.floor x
    let y0 : Int := Int.floor y
    let x1 : Int := x0 + 1
    let y1 : Int := y0 + 1
    let ax : ℚ := x - (x0 : ℚ)
    let ay : ℚ := y - (y0 : ℚ)
    let v00 := fget map (y0.toNat * w + x0.toNat)
    let v10 := fget map (y0.toNat * w + x1.toNat)
    let v01 := fget map (y1.toNat * w + x0.toNat)
    let v11 := fget map (y1.toNat * w + x1.toNat)
    let v0 := v00 * (1 - ax) + v10 * ax
    let v1 := v01 * (1 - ax) + v11 * ax
    v0 * (1 - ay) + v1 * ay

/-- Phase 5, transportSediment (lines 364-387): semi-Lagrangian
advection into a fresh buffer initialised as a copy, then swapped in. -/
def transportSediment (s : ErosionState) (dt : ℚ) : ErosionState :=
  { s with sediment :=
      buildField s.sediment.length (fun i =>
        let x := i % s.width
        let y := i / s.width
        if x ≤ 0 ∨ s.width - 1 ≤ x ∨ y ≤ 0 ∨ s.height - 1 ≤ y then
          fget s.sediment i
        else
          let u := fget s.velocityX i
          let v := fget s.velocityY i
          let srcX := (x : ℚ) - u * dt
          let srcY := (y : ℚ) - v * dt
          sampleBilinear s.width s.height s.sediment srcX srcY) }

/-- Phase 6, evaporate (lines 389-394): scale by (1 - KE*dt) and snap
values below 0.0001 to zero. -/
def evaporate (s : ErosionState) (dt : ℚ) : ErosionState :=
  { s with waterHeight :=
      buildField s.waterHeight.length (fun i =>
        let v := fget s.waterHeight i * (1 - KE * dt)
        if v < 0.0001 then 0 else v) }

/-- Phase 7, smoothTerrain (lines 420-463): diffusion of interior cells
towards the neighbour average into a fresh buffer, clamped to
[0.01, 2.5], then copied back. -/
def smoothTerrain (s : ErosionState) (terrain : List ℚ) (dt : ℚ) :
    List ℚ :=
  let smoothingAmount := K_SMOOTH * dt
  buildField terrain.length (fun i =>
    let x := i % s.width
    let y := i / s.width
    if x ≤ 0 ∨ s.width - 1 ≤ x ∨ y ≤ 0 ∨ s.height - 1 ≤ y then
      fget terrain i
    else
      let h := fget terrain i
      let hL := fget terrain (i - 1)
      let hR := fget terrain (i + 1)
      let hT := fget terrain (i + s.width)
      let hB := fget terrain (i - s.width)
      let avgNeighbor := (hL + hR + hT + hB) / 4
      let waterFactor := min 1 (fget s.waterHeight i * 10)
      let eff := smoothingAmount * (0.2 + waterFactor * 0.8)
      let v := h + (avgNeighbor - h) * eff
      let v1 := if v < 0.01 then 0.01 else v
      if 2.5 < v1 then 2.5 else v1)

/-- Phase 8, applyOpenBoundary (lines 91-132).  For each x the loop
zeroes water and sediment at idx = (height-1-dr)*width + x for
dr = 0..9 whenever 0 <= idx < length, and at idxTop1 = x.  A cell i is
hit exactly when i < width (top row) or its row y = i/width satisfies
y < height and height <= y + 10 (the bottom drainage rows); only the
constant 0 is ever written, so the loops are modelled pointwise. -/
def applyOpenBoundary (s : ErosionState) : ErosionState :=
  { s with
    waterHeight := buildField s.waterHeight.length (fun i =>
      if i < s.width ∨ (i / s.width < s.height ∧ s.height ≤ i / s.width + 10)
      then 0 else fget s.waterHeight i)
    sediment := buildField s.sediment.length (fun i =>
      if i < s.width ∨ (i / s.width < s.height ∧ s.height ≤ i / s.width + 10)
      then 0 else fget s.sediment i) }

/-- simulate (lines 63-89): the eight phases in order; returns the new
engine state and the mutated terrain array. -/
def simulate (s : ErosionState) (terrain : List ℚ) (dt flowRate : ℚ)
    (isRaining : Bool) (erosionRateMultiplier : ℚ) :
    ErosionState × List ℚ :=
  let s1 := addWater s dt flowRate isRaining
  let s2 := computeFlux s1 terrain dt
  let s3 := updateWaterAndVelocity s2 dt
  let ed := erosionDeposition s3 terrain dt erosionRateMultiplier
  let s5 := transportSediment ed.1 dt
  let s6 := evaporate s5 dt
  let terrain7 := smoothTerrain s6 ed.2 dt
  let s8 := applyOpenBoundary s6
  (s8, terrain7)

/-- A sequence of simulate calls, threading state and terrain; each
parameter tuple is (dt, flowRate, isRaining, erosionRateMultiplier). -/
def runSeq (st : ErosionState × List ℚ)
    (ps : List (ℚ × ℚ × Bool × ℚ)) : ErosionState × List ℚ :=
  ps.foldl (fun acc p => simulate acc.1 acc.2 p.1 p.2.1 p.2.2.1 p.2.2.2) st

/-! ### Basic lemmas about field access -/

theorem length_buildField (n : Nat) (f : Nat → ℚ) :
    (buildField n f).length = n := by
  simp [buildField]

theorem fget_buildField (n : Nat) (f : Nat → ℚ) (i : Nat) :
    fget (buildField n f) i = if i < n then f i else 0 := by
  simp only [buildField, fget, List.getD_eq_getElem?_getD, List.getElem?_map]
  rcases Nat.lt_or_ge i n with h | h
  · rw [List.getElem?_range h]
    simp [h]
  · have hl : (List.range n).length ≤ i := by simpa using h
    rw [List.getElem?_eq_none hl]
    simp [Nat.not_lt.mpr h]

theorem fget_prop {P : ℚ → Prop} (l : List ℚ) (i : Nat) (h0 : P 0)
    (h : ∀ x ∈ l, P x) : P (fget l i) := by
  unfold fget
  rcases Nat.lt_or_ge i l.length with hi | hi
  · rw [List.getD_eq_getElem?_getD, List.getElem?_eq_getElem hi]
    exact h _ (List.getElem_mem hi)
  · rw [List.getD_eq_getElem?_getD, List.getElem?_eq_none hi]
    exact h0

theorem fget_eq_zero (l : List ℚ) (i : Nat) (h : ∀ x ∈ l, x = 0) :
    fget l i = 0 :=
  @fget_prop (fun x => x = 0) l i rfl h

theorem fget_set_ne (l : List ℚ) (i j : Nat) (v : ℚ) (h : i ≠ j) :
    fget (l.set i v) j = fget l j := by
  simp [fget, List.getD_eq_getElem?_getD, List.getElem?_set_ne h]

theorem forall_mem_buildField {P : ℚ → Prop} {n : Nat} {f : Nat → ℚ}
    (h : ∀ i, i < n → P (f i)) : ∀ x ∈ buildField n f, P x := by
  intro x hx
  obtain ⟨i, hi, rfl⟩ := List.mem_map.mp hx
  exact h i (List.mem_range.mp hi)

theorem foldl_invariant {α β : Type} (P : α → Prop) (f : α → β → α)
    (l : List β) (init : α) (hstep : ∀ acc b, P acc → P (f acc b))
    (hinit : P init) : P (l.foldl f init) := by
  induction l generalizing init with
  | nil => exact hinit
  | cons b bs ih => exact ih _ (hstep _ _ hinit)

/-! ### Projection lemmas for the phases -/

section Projections

variable (s : ErosionState) (terrain : List ℚ) (dt fr m : ℚ) (ir : Bool)

@[simp] theorem addWater_width : (addWater s dt fr ir).width = s.width := by
  cases ir <;> rfl

@[simp] theorem addWater_height : (addWater s dt fr ir).height = s.height := by
  cases ir <;> rfl

@[simp] theorem addWater_sediment :
    (addWater s dt fr ir).sediment = s.sediment := by
  cases ir <;> rfl

@[simp] theorem addWater_fluxL : (addWater s dt fr ir).fluxL = s.fluxL := by
  cases ir <;> rfl

@[simp] theorem addWater_fluxR : (addWater s dt fr ir).fluxR = s.fluxR := by
  cases ir <;> rfl

@[simp] theorem addWater_fluxT : (addWater s dt fr ir).fluxT = s.fluxT := by
  cases ir <;> rfl

@[simp] theorem addWater_fluxB : (addWater s dt fr ir).fluxB = s.fluxB := by
  cases ir <;> rfl

@[simp] theorem addWater_not_raining : addWater s dt fr false = s := rfl

@[simp] theorem computeFlux_width : (computeFlux s terrain dt).width = s.width :=
  rfl

@[simp] theorem computeFlux_height :
    (computeFlux s terrain dt).height = s.height := rfl

@[simp] theorem computeFlux_waterHeight :
    (computeFlux s terrain dt).waterHeight = s.waterHeight := rfl

@[simp] theorem computeFlux_sediment :
    (computeFlux s terrain dt).sediment = s.sediment := rfl

@[simp] theorem computeFlux_fluxL : (computeFlux s terrain dt).fluxL =
    buildField (s.width * s.height) (fun i => (fluxCell s terrain dt i).1) :=
  rfl

@[simp] theorem computeFlux_fluxR : (computeFlux s terrain dt).fluxR =
    buildField (s.width * s.height) (fun i => (fluxCell s terrain dt i).2.1) :=
  rfl

@[simp] theorem computeFlux_fluxT : (computeFlux s terrain dt).fluxT =
    buildField (s.width * s.height)
      (fun i => (fluxCell s terrain dt i).2.2.1) := rfl

@[simp] theorem computeFlux_fluxB : (computeFlux s terrain dt).fluxB =
    buildField (s.width * s.height)
      (fun i => (fluxCell s terrain dt i).2.2.2) := rfl

@[simp] theorem updateWater_width :
    (updateWaterAndVelocity s dt).width = s.width := rfl

@[simp] theorem updateWater_height :
    (updateWaterAndVelocity s dt).height = s.height := rfl

@[simp] theorem updateWater_sediment :
    (updateWaterAndVelocity s dt).sediment = s.sediment := rfl

@[simp] theorem updateWater_fluxL :
    (updateWaterAndVelocity s dt).fluxL = s.fluxL := rfl

@[simp] theorem updateWater_fluxR :
    (updateWaterAndVelocity s dt).fluxR = s.fluxR := rfl

@[simp] theorem updateWater_fluxT :
    (updateWaterAndVelocity s dt).fluxT = s.fluxT := rfl

@[simp] theorem updateWater_fluxB :
    (updateWaterAndVelocity s dt).fluxB = s.fluxB := rfl

@[simp] theorem updateWater_waterHeight :
    (updateWaterAndVelocity s dt).waterHeight =
      buildField (s.width * s.height) (fun i => (updateCell s dt i).1) := rfl

@[simp] theorem updateWater_velocityX :
    (updateWaterAndVelocity s dt).velocityX =
      buildField (s.width * s.height) (fun i => (updateCell s dt i).2.1) := rfl

@[simp] theorem updateWater_velocityY :
    (updateWaterAndVelocity s dt).velocityY =
      buildField (s.width * s.height) (fun i => (updateCell s dt i).2.2) := rfl

@[simp] theorem erosionDeposition_width :
    (erosionDeposition s terrain dt m).1.width = s.width := rfl

@[simp] theorem erosionDeposition_height :
    (erosionDeposition s terrain dt m).1.height = s.height := rfl

@[simp] theorem erosionDeposition_waterHeight :
    (erosionDeposition s terrain dt m).1.waterHeight = s.waterHeight := rfl

@[simp] theorem erosionDeposition_velocityX :
    (erosionDeposition s terrain dt m).1.velocityX = s.velocityX := rfl

@[simp] theorem erosionDeposition_velocityY :
    (erosionDeposition s terrain dt m).1.velocityY = s.velocityY := rfl

theorem erosionDeposition_sediment :
    (erosionDeposition s terrain dt m).1.sediment =
      ((List.range (s.width * s.height)).foldl
        (erodeCell s.width s.height s.velocityX s.velocityY dt m)
        (terrain, s.sediment)).2 := rfl

theorem erosionDeposition_terrain :
    (erosionDeposition s terrain dt m).2 =
      ((List.range (s.width * s.height)).foldl
        (erodeCell s.width s.height s.velocityX s.velocityY dt m)
        (terrain, s.sediment)).1 := rfl

@[simp] theorem transportSediment_width :
    (transportSediment s dt).width = s.width := rfl

@[simp] theorem transportSediment_height :
    (transportSediment s dt).height = s.height := rfl

@[simp] theorem transportSediment_waterHeight :
    (transportSediment s dt).waterHeight = s.waterHeight := rfl

@[simp] theorem transportSediment_velocityX :
    (transportSediment s dt).velocityX = s.velocityX := rfl

@[simp] theorem transportSediment_velocityY :
    (transportSediment s dt).velocityY = s.velocityY := rfl

@[simp] theorem evaporate_width : (evaporate s dt).width = s.width := rfl

@[simp] theorem evaporate_height : (evaporate s dt).height = s.height := rfl

@[simp] theorem evaporate_sediment : (evaporate s dt).sediment = s.sediment :=
  rfl

@[simp] theorem evaporate_velocityX :
    (evaporate s dt).velocityX = s.velocityX := rfl

@[simp] theorem evaporate_velocityY :
    (evaporate s dt).velocityY = s.velocityY := rfl

@[simp] theorem applyOpenBoundary_width :
    (applyOpenBoundary s).width = s.width := rfl

@[simp] theorem applyOpenBoundary_height :
    (applyOpenBoundary s).height = s.height := rfl

@[simp] theorem applyOpenBoundary_velocityX :
    (applyOpenBoundary s).velocityX = s.velocityX := rfl

@[simp] theorem applyOpenBoundary_velocityY :
    (applyOpenBoundary s).velocityY = s.velocityY := rfl

theorem simulate_state : (simulate s terrain dt fr ir m).1 =
    applyOpenBoundary (evaporate (transportSediment
      (erosionDeposition (updateWaterAndVelocity
        (computeFlux (addWater s dt fr ir) terrain dt) dt) terrain dt m).1
      dt) dt) := rfl

theorem simulate_terrain : (simulate s terrain dt fr ir m).2 =
    smoothTerrain (evaporate (transportSediment
      (erosionDeposition (updateWaterAndVelocity
        (computeFlux (addWater s dt fr ir) terrain dt) dt) terrain dt m).1
      dt) dt)
      (erosionDeposition (updateWaterAndVelocity
        (computeFlux (addWater s dt fr ir) terrain dt) dt) terrain dt m).2
      dt := rfl

end Projections

/-! ### C6: bilinear sampler exactness and boundary behaviour -/

/-- C6: sampleBilinear at an integer coordinate (x, y) with
0 <= x < width-1 and 0 <= y < height-1 returns field[y*width+x]
exactly, and at any coordinate with x < 0, y < 0, x >= width-1 or
y >= height-1 (including exactly width-1 and height-1) it returns 0. -/
theorem sampleBilinear_spec (w h : Nat) (field : List ℚ) :
    (∀ x y : Nat, x < w - 1 → y < h - 1 →
      sampleBilinear w h field (x : ℚ) (y : ℚ) = fget field (y * w + x)) ∧
    (∀ x y : ℚ, (x < 0 ∨ (w : ℚ) - 1 ≤ x ∨ y < 0 ∨ (h : ℚ) - 1 ≤ y) →
      sampleBilinear w h field x y = 0) := by
  constructor
  · intro x y hx hy
    have hxw : x + 2 ≤ w := by omega
    have hyh : y + 2 ≤ h := by omega
    have hxq : (x : ℚ) < (w : ℚ) - 1 := by
      have h2 : ((x + 2 : Nat) : ℚ) ≤ ((w : Nat) : ℚ) := Nat.cast_le.mpr hxw
      push_cast at h2
      linarith
    have hyq : (y : ℚ) < (h : ℚ) - 1 := by
      have h2 : ((y + 2 : Nat) : ℚ) ≤ ((h : Nat) : ℚ) := Nat.cast_le.mpr hyh
      push_cast at h2
      linarith
    unfold sampleBilinear
    rw [if_neg]
    · simp only [Int.floor_natCast, Int.toNat_natCast, Int.cast_natCast]
      ring_nf
    · push_neg
      refine ⟨by positivity, by linarith, by positivity, by linarith⟩
  · intro x y hcond
    unfold sampleBilinear
    rw [if_pos hcond]

/-- Witness for C6: on a 3x3 field the sampler is exact at the interior
integer coordinate (1,1) and returns 0 at x = width-1 = 2. -/
theorem sampleBilinear_spec_witness :
    sampleBilinear 3 3 [0, 1, 2, 3, 4, 5, 6, 7, 8] ((1 : Nat) : ℚ)
      ((1 : Nat) : ℚ) = fget [0, 1, 2, 3, 4, 5, 6, 7, 8] (1 * 3 + 1) ∧
    sampleBilinear 3 3 [0, 1, 2, 3, 4, 5, 6, 7, 8] 2 0 = 0 :=
  ⟨(sampleBilinear_spec 3 3 _).1 1 1 (by decide) (by decide),
   (sampleBilinear_spec 3 3 _).2 2 0 (by norm_num)⟩

/-! ### C4: drainage invariant -/

/-- C4: at the end of every simulate call (phase 8 is last), every cell
in the last 10 rows of the grid has waterHeight = 0 and sediment = 0. -/
theorem drainage_rows_zero (s : ErosionState) (terrain : List ℚ)
    (dt flowRate : ℚ) (isRaining : Bool) (mult : ℚ) (i : Nat)
    (hi : i < s.width * s.height) (hrow : s.height ≤ i / s.width + 10) :
    fget (simulate s terrain dt flowRate isRaining mult).1.waterHeight i = 0 ∧
    fget (simulate s terrain dt flowRate isRaining mult).1.sediment i = 0 := by
  have hw : 0 < s.width := by
    rcases Nat.eq_zero_or_pos s.width with h0 | h0
    · rw [h0] at hi; simp at hi
    · exact h0
  have hdiv : i / s.width < s.height :=
    (Nat.div_lt_iff_lt_mul hw).mpr (by
      calc i < s.width * s.height := hi
        _ = s.height * s.width := Nat.mul_comm _ _)
  have hcond : i < s.width ∨
      (i / s.width < s.height ∧ s.height ≤ i / s.width + 10) :=
    Or.inr ⟨hdiv, hrow⟩
  rw [simulate_state]
  set s6 := evaporate (transportSediment
    (erosionDeposition (updateWaterAndVelocity
      (computeFlux (addWater s dt flowRate isRaining) terrain dt) dt)
      terrain dt mult).1 dt) dt with hs6
  have hwidth : s6.width = s.width := by simp [hs6]
  have hheight : s6.height = s.height := by simp [hs6]
  have hlen : s6.waterHeight.length = s.width * s.height := by
    simp [hs6, evaporate, length_buildField]
  constructor
  · show fget (applyOpenBoundary s6).waterHeight i = 0
    simp only [applyOpenBoundary, fget_buildField, hwidth, hheight, hlen]
    rw [if_pos (hi.trans_eq rfl), if_pos hcond]
  · show fget (applyOpenBoundary s6).sediment i = 0
    simp only [applyOpenBoundary, fget_buildField, hwidth, hheight]
    rcases Nat.lt_or_ge i s6.sediment.length with hilen | hilen
    · rw [if_pos hilen, if_pos hcond]
    · rw [if_neg (Nat.not_lt.mpr hilen)]

/-- Witness for C4 at a concrete call: cell 30 of a 3x12 grid lies in
the last 10 rows and is drained. -/
theorem drainage_rows_zero_witness :
    fget (simulate (mkState 3 12) (List.replicate 36 1) 1 1 true
      1).1.waterHeight 30 = 0 ∧
    fget (simulate (mkState 3 12) (List.replicate 36 1) 1 1 true
      1).1.sediment 30 = 0 :=
  drainage_rows_zero (mkState 3 12) (List.replicate 36 1) 1 1 true 1 30
    (by decide) (by decide)

/-! ### C7: boundary cells have zero flux and velocity after phase 3 -/

theorem fluxCell_boundary (s : ErosionState) (terrain : List ℚ) (dt : ℚ)
    (i : Nat) (hb : i % s.width ≤ 0 ∨ s.width - 1 ≤ i % s.width ∨
      i / s.width ≤ 0 ∨ s.height - 1 ≤ i / s.width) :
    fluxCell s terrain dt i = (0, 0, 0, 0) := by
  unfold fluxCell
  rw [if_pos hb]

theorem updateCell_boundary (s : ErosionState) (dt : ℚ) (i : Nat)
    (hb : i % s.width ≤ 0 ∨ s.width - 1 ≤ i % s.width ∨
      i / s.width ≤ 0 ∨ s.height - 1 ≤ i / s.width) :
    updateCell s dt i = (fget s.waterHeight i, 0, 0) := by
  unfold updateCell
  rw [if_pos hb]

/-- C7: after phase 3 of every simulate call, every boundary cell
(x = 0, x = width-1, y = 0 or y = height-1) has all four flux
components and both velocity components exactly zero. -/
theorem boundary_flux_velocity_zero (s : ErosionState) (terrain : List ℚ)
    (dt flowRate : ℚ) (isRaining : Bool) (i : Nat)
    (hi : i < s.width * s.height)
    (hb : i % s.width = 0 ∨ i % s.width = s.width - 1 ∨
      i / s.width = 0 ∨ i / s.width = s.height - 1) :
    fget (updateWaterAndVelocity (computeFlux
      (addWater s dt flowRate isRaining) terrain dt) dt).fluxL i = 0 ∧
    fget (updateWaterAndVelocity (computeFlux
      (addWater s dt flowRate isRaining) terrain dt) dt).fluxR i = 0 ∧
    fget (updateWaterAndVelocity (computeFlux
      (addWater s dt flowRate isRaining) terrain dt) dt).fluxT i = 0 ∧
    fget (updateWaterAndVelocity (computeFlux
      (addWater s dt flowRate isRaining) terrain dt) dt).fluxB i = 0 ∧
    fget (updateWaterAndVelocity (computeFlux
      (addWater s dt flowRate isRaining) terrain dt) dt).velocityX i = 0 ∧
    fget (updateWaterAndVelocity (computeFlux
      (addWater s dt flowRate isRaining) terrain dt) dt).velocityY i = 0 := by
  set s1 := addWater s dt flowRate isRaining with hs1
  have hw1 : s1.width = s.width := by simp [hs1]
  have hh1 : s1.height = s.height := by simp [hs1]
  have hb1 : i % s1.width ≤ 0 ∨ s1.width - 1 ≤ i % s1.width ∨
      i / s1.width ≤ 0 ∨ s1.height - 1 ≤ i / s1.width := by
    rw [hw1, hh1]
    rcases hb with h | h | h | h
    · exact Or.inl h.le
    · exact Or.inr (Or.inl h.ge)
    · exact Or.inr (Or.inr (Or.inl h.le))
    · exact Or.inr (Or.inr (Or.inr h.ge))
  set s2 := computeFlux s1 terrain dt with hs2
  have hb2 : i % s2.width ≤ 0 ∨ s2.width - 1 ≤ i % s2.width ∨
      i / s2.width ≤ 0 ∨ s2.height - 1 ≤ i / s2.width := by
    simpa [hs2] using hb1
  have hi1 : i < s1.width * s1.height := by rw [hw1, hh1]; exact hi
  have hi2 : i < s2.width * s2.height := by simpa [hs2] using hi1
  refine ⟨?_, ?_, ?_, ?_, ?_, ?_⟩
  · rw [updateWater_fluxL, computeFlux_fluxL, fget_buildField, if_pos hi1,
      fluxCell_boundary s1 terrain dt i hb1]
  · rw [updateWater_fluxR, computeFlux_fluxR, fget_buildField, if_pos hi1,
      fluxCell_boundary s1 terrain dt i hb1]
  · rw [updateWater_fluxT, computeFlux_fluxT, fget_buildField, if_pos hi1,
      fluxCell_boundary s1 terrain dt i hb1]
  · rw [updateWater_fluxB, computeFlux_fluxB, fget_buildField, if_pos hi1,
      fluxCell_boundary s1 terrain dt i hb1]
  · rw [updateWater_velocityX, fget_buildField, if_pos hi2,
      updateCell_boundary s2 dt i hb2]
  · rw [updateWater_velocityY, fget_buildField, if_pos hi2,
      updateCell_boundary s2 dt i hb2]

/-- Witness for C7 at a concrete call: cell 0 of a 3x3 grid is a
boundary cell. -/
theorem boundary_flux_velocity_zero_witness :
    fget (updateWaterAndVelocity (computeFlux
      (addWater (mkState 3 3) 1 1 true) (List.replicate 9 1) 1) 1).fluxL 0
      = 0 ∧
    fget (updateWaterAndVelocity (computeFlux
      (addWater (mkState 3 3) 1 1 true) (List.replicate 9 1) 1) 1).fluxR 0
      = 0 ∧
    fget (updateWaterAndVelocity (computeFlux
      (addWater (mkState 3 3) 1 1 true) (List.replicate 9 1) 1) 1).fluxT 0
      = 0 ∧
    fget (updateWaterAndVelocity (computeFlux
      (addWater (mkState 3 3) 1 1 true) (List.replicate 9 1) 1) 1).fluxB 0
      = 0 ∧
    fget (updateWaterAndVelocity (computeFlux
      (addWater (mkState 3 3) 1 1 true) (List.replicate 9 1) 1) 1).velocityX
      0 = 0 ∧
    fget (updateWaterAndVelocity (computeFlux
      (addWater (mkState 3 3) 1 1 true) (List.replicate 9 1) 1) 1).velocityY
      0 = 0 :=
  boundary_flux_velocity_zero (mkState 3 3) (List.replicate 9 1) 1 1 true 0
    (by decide) (by decide)

/-! ### C9 (amended): velocity is zero where water is zero after phase 3 -/

theorem updateCell_velocity_zero_of_water_zero (s : ErosionState) (dt : ℚ)
    (i : Nat) (h : (updateCell s dt i).1 = 0) :
    (updateCell s dt i).2.1 = 0 ∧ (updateCell s dt i).2.2 = 0 := by
  simp only [updateCell] at h ⊢
  split_ifs at h ⊢ with h1 h2 h3 <;> simp_all

/-- C9 (amended): after phase 3 of every simulate call, every cell whose
water height is zero at that point has both velocity components zero.
(The original claim about the end of the call fails, because phases 6
and 8 zero water afterwards without resetting velocity.) -/
theorem velocity_zero_where_water_zero_phase3 (s : ErosionState)
    (terrain : List ℚ) (dt flowRate : ℚ) (isRaining : Bool) (i : Nat)
    (hi : i < s.width * s.height)
    (hw0 : fget (updateWaterAndVelocity (computeFlux
      (addWater s dt flowRate isRaining) terrain dt) dt).waterHeight i = 0) :
    fget (updateWaterAndVelocity (computeFlux
      (addWater s dt flowRate isRaining) terrain dt) dt).velocityX i = 0 ∧
    fget (updateWaterAndVelocity (computeFlux
      (addWater s dt flowRate isRaining) terrain dt) dt).velocityY i = 0 := by
  set s2 := computeFlux (addWater s dt flowRate isRaining) terrain dt with hs2
  have hi2 : i < s2.width * s2.height := by simpa [hs2] using hi
  rw [updateWater_waterHeight, fget_buildField, if_pos hi2] at hw0
  have hv := updateCell_velocity_zero_of_water_zero s2 dt i hw0
  rw [updateWater_velocityX, fget_buildField, if_pos hi2,
    updateWater_velocityY, fget_buildField, if_pos hi2]
  exact hv

/-- Witness for the amended C9: on a freshly constructed 3x3 engine the
phase 3 water at the interior cell 4 is zero and so is its velocity. -/
theorem velocity_zero_where_water_zero_phase3_witness :
    fget (updateWaterAndVelocity (computeFlux
      (addWater (mkState 3 3) 1 0 false) (List.replicate 9 1) 1)
      1).velocityX 4 = 0 ∧
    fget (updateWaterAndVelocity (computeFlux
      (addWater (mkState 3 3) 1 0 false) (List.replicate 9 1) 1)
      1).velocityY 4 = 0 :=
  velocity_zero_where_water_zero_phase3 (mkState 3 3) (List.replicate 9 1)
    1 0 false 4 (by decide) (by decide)

/-! ### C1: conservation bound of the flux rescaling -/

theorem CELL_AREA_nonneg : (0 : ℚ) ≤ CELL_AREA := by norm_num [CELL_AREA]

theorem sum_rescale_le (w dt a b c d : ℚ) (hdt : 0 ≤ dt) (hw : 0 ≤ w)
    (hsum : 0 < a + b + c + d) :
    (a * min 1 (w * CELL_AREA / ((a + b + c + d) * dt)) +
     b * min 1 (w * CELL_AREA / ((a + b + c + d) * dt)) +
     c * min 1 (w * CELL_AREA / ((a + b + c + d) * dt)) +
     d * min 1 (w * CELL_AREA / ((a + b + c + d) * dt))) * dt
      ≤ w * CELL_AREA := by
  rcases hdt.eq_or_lt with h0 | hpos
  · rw [← h0]
    simpa using mul_nonneg hw CELL_AREA_nonneg
  · set S := a + b + c + d with hS
    set K := min 1 (w * CELL_AREA / (S * dt)) with hK
    have hSdt : 0 < S * dt := mul_pos hsum hpos
    have hKle : K ≤ w * CELL_AREA / (S * dt) := min_le_right _ _
    have h1 : (a * K + b * K + c * K + d * K) * dt = S * dt * K := by ring
    rw [h1]
    calc S * dt * K ≤ S * dt * (w * CELL_AREA / (S * dt)) :=
          mul_le_mul_of_nonneg_left hKle hSdt.le
      _ = w * CELL_AREA := by
          rw [mul_comm]
          exact div_mul_cancel₀ _ hSdt.ne'

theorem fluxCell_sum_le (s1 : ErosionState) (terrain : List ℚ) (dt : ℚ)
    (i : Nat) (hdt : 0 ≤ dt) (hw : 0 ≤ fget s1.waterHeight i) :
    ((fluxCell s1 terrain dt i).1 + (fluxCell s1 terrain dt i).2.1 +
      (fluxCell s1 terrain dt i).2.2.1 + (fluxCell s1 terrain dt i).2.2.2)
      * dt ≤ fget s1.waterHeight i * CELL_AREA := by
  simp only [fluxCell]
  split_ifs with hskip hsum
  · simpa using mul_nonneg hw CELL_AREA_nonneg
  · exact sum_rescale_le _ dt _ _ _ _ hdt hw hsum
  · have h1 : _ * dt ≤ (0 : ℚ) :=
      mul_nonpos_iff.mpr (Or.inr ⟨not_lt.mp hsum, hdt⟩)
    exact h1.trans (mul_nonneg hw CELL_AREA_nonneg)

/-- C1: in every simulate call with dt >= 0, writing waterBefore for
the water field at entry to phase 2 (that is, after addWater), after
the computeFlux rescaling every cell satisfies
(fluxL + fluxR + fluxT + fluxB) * dt <= waterBefore * CELL_AREA; the
bound holds exactly, hence for every epsilon >= 0 as well. -/
theorem computeFlux_conservation (s : ErosionState) (terrain : List ℚ)
    (dt flowRate : ℚ) (isRaining : Bool) (i : Nat) (hdt : 0 ≤ dt)
    (hi : i < s.width * s.height)
    (hw : 0 ≤ fget (addWater s dt flowRate isRaining).waterHeight i) :
    (fget (computeFlux (addWater s dt flowRate isRaining) terrain dt).fluxL
        i +
     fget (computeFlux (addWater s dt flowRate isRaining) terrain dt).fluxR
        i +
     fget (computeFlux (addWater s dt flowRate isRaining) terrain dt).fluxT
        i +
     fget (computeFlux (addWater s dt flowRate isRaining) terrain dt).fluxB
        i) * dt ≤
      fget (addWater s dt flowRate isRaining).waterHeight i * CELL_AREA := by
  set s1 := addWater s dt flowRate isRaining with hs1
  have hi1 : i < s1.width * s1.height := by simpa [hs1] using hi
  rw [computeFlux_fluxL, computeFlux_fluxR, computeFlux_fluxT,
    computeFlux_fluxB, fget_buildField, fget_buildField, fget_buildField,
    fget_buildField, if_pos hi1, if_pos hi1, if_pos hi1, if_pos hi1]
  exact fluxCell_sum_le s1 terrain dt i hdt hw

/-- Witness for C1 at a concrete call on a 3x3 grid, cell 4. -/
theorem computeFlux_conservation_witness :
    (fget (computeFlux (addWater (mkState 3 3) 1 1 true)
        (List.replicate 9 1) 1).fluxL 4 +
     fget (computeFlux (addWater (mkState 3 3) 1 1 true)
        (List.replicate 9 1) 1).fluxR 4 +
     fget (computeFlux (addWater (mkState 3 3) 1 1 true)
        (List.replicate 9 1) 1).fluxT 4 +
     fget (computeFlux (addWater (mkState 3 3) 1 1 true)
        (List.replicate 9 1) 1).fluxB 4) * 1 ≤
      fget (addWater (mkState 3 3) 1 1 true).waterHeight 4 * CELL_AREA :=
  computeFlux_conservation (mkState 3 3) (List.replicate 9 1) 1 1 true 4
    (by norm_num) (by decide) (by decide)

/-! ### Lemmas about the erosion fold -/

theorem erodeCell_fst_length (w h : Nat) (vx vy : List ℚ) (dt m : ℚ)
    (acc : List ℚ × List ℚ) (i : Nat) :
    (erodeCell w h vx vy dt m acc i).1.length = acc.1.length := by
  simp only [erodeCell]
  split_ifs <;> simp

theorem erosionTerrain_length (s : ErosionState) (terrain : List ℚ)
    (dt m : ℚ) :
    (erosionDeposition s terrain dt m).2.length = terrain.length := by
  rw [erosionDeposition_terrain]
  exact foldl_invariant
    (fun acc : List ℚ × List ℚ => acc.1.length = terrain.length)
    (erodeCell s.width s.height s.velocityX s.velocityY dt m)
    (List.range (s.width * s.height)) (terrain, s.sediment)
    (fun acc b hacc => (erodeCell_fst_length _ _ _ _ _ _ _ _).trans hacc) rfl

theorem erosion_fold_boundary_terrain (s : ErosionState) (terrain : List ℚ)
    (dt m : ℚ) (i : Nat)
    (hb : i % s.width = 0 ∨ i % s.width = s.width - 1 ∨
      i / s.width = 0 ∨ i / s.width = s.height - 1) :
    fget (erosionDeposition s terrain dt m).2 i = fget terrain i := by
  rw [erosionDeposition_terrain]
  refine foldl_invariant
    (fun acc : List ℚ × List ℚ => fget acc.1 i = fget terrain i)
    (erodeCell s.width s.height s.velocityX s.velocityY dt m)
    (List.range (s.width * s.height)) (terrain, s.sediment) ?_ rfl
  intro acc j hacc
  by_cases hskip : j % s.width ≤ 0 ∨ s.width - 1 ≤ j % s.width ∨
      j / s.width ≤ 0 ∨ s.height - 1 ≤ j / s.width ∨
      s.height - 10 ≤ j / s.width
  · simp only [erodeCell, if_pos hskip]
    exact hacc
  · have hji : j ≠ i := by
      intro he
      subst he
      push_neg at hskip
      obtain ⟨h1, h2, h3, h4, h5⟩ := hskip
      rcases hb with h | h | h | h
      · omega
      · omega
      · omega
      · omega
    simp only [erodeCell, if_neg hskip]
    split_ifs <;>
      (dsimp only; rw [fget_set_ne _ _ _ _ hji]; exact hacc)

/-! ### C10: simulate never modifies boundary terrain -/

theorem smoothTerrain_boundary (s : ErosionState) (terrain : List ℚ)
    (dt : ℚ) (i : Nat) (hi : i < terrain.length)
    (hb : i % s.width ≤ 0 ∨ s.width - 1 ≤ i % s.width ∨
      i / s.width ≤ 0 ∨ s.height - 1 ≤ i / s.width) :
    fget (smoothTerrain s terrain dt) i = fget terrain i := by
  simp only [smoothTerrain]
  rw [fget_buildField, if_pos hi, if_pos hb]

/-- C10: a single simulate call leaves the terrain value of every
boundary cell unchanged; only interior cells are eroded, deposited on,
or smoothed. -/
theorem boundary_terrain_unchanged (s : ErosionState) (terrain : List ℚ)
    (dt flowRate : ℚ) (isRaining : Bool) (mult : ℚ) (i : Nat)
    (hlen : terrain.length = s.width * s.height)
    (hi : i < s.width * s.height)
    (hb : i % s.width = 0 ∨ i % s.width = s.width - 1 ∨
      i / s.width = 0 ∨ i / s.width = s.height - 1) :
    fget (simulate s terrain dt flowRate isRaining mult).2 i =
      fget terrain i := by
  rw [simulate_terrain]
  set s3 := updateWaterAndVelocity
    (computeFlux (addWater s dt flowRate isRaining) terrain dt) dt with hs3
  have hw3 : s3.width = s.width := by simp [hs3]
  have hh3 : s3.height = s.height := by simp [hs3]
  have hb3 : i % s3.width = 0 ∨ i % s3.width = s3.width - 1 ∨
      i / s3.width = 0 ∨ i / s3.width = s3.height - 1 := by
    rw [hw3, hh3]; exact hb
  set s6 := evaporate (transportSediment
    (erosionDeposition s3 terrain dt mult).1 dt) dt with hs6
  have hw6 : s6.width = s.width := by simp [hs6, hs3]
  have hh6 : s6.height = s.height := by simp [hs6, hs3]
  have hlen4 : (erosionDeposition s3 terrain dt mult).2.length =
      s.width * s.height := by
    rw [erosionTerrain_length, hlen]
  have hb6 : i % s6.width ≤ 0 ∨ s6.width - 1 ≤ i % s6.width ∨
      i / s6.width ≤ 0 ∨ s6.height - 1 ≤ i / s6.width := by
    rw [hw6, hh6]
    rcases hb with h | h | h | h
    · exact Or.inl h.le
    · exact Or.inr (Or.inl h.ge)
    · exact Or.inr (Or.inr (Or.inl h.le))
    · exact Or.inr (Or.inr (Or.inr h.ge))
  rw [smoothTerrain_boundary s6 _ dt i (by rw [hlen4]; exact hi) hb6]
  exact erosion_fold_boundary_terrain s3 terrain dt mult i hb3

/-- Witness for C10: the corner cell 0 of a 3x3 grid keeps its terrain
value across a call. -/
theorem boundary_terrain_unchanged_witness :
    fget (simulate (mkState 3 3) (List.replicate 9 1) 1 1 true 1).2 0 =
      fget (List.replicate 9 1) 0 :=
  boundary_terrain_unchanged (mkState 3 3) (List.replicate 9 1) 1 1 true 1 0
    (by decide) (by decide) (by decide)

/-! ### C3: terrain range invariant -/

set_option maxRecDepth 10000 in
/-- C3 counterexample: with the canonical constants of the claim
(maxH = 1.5) the invariant fails.  On a 3x3 grid with uniform terrain
2.0 and no water, the interior cell 4 still holds terrain 2 > 1.5 after
a simulate call with dt = 1 (the code clamps at 2.5, not 1.5). -/
theorem terrain_range_counterexample :
    fget (simulate (mkState 3 3) (List.replicate 9 2) 1 0 false 1).2 4 = 2 ∧
    ¬ fget (simulate (mkState 3 3) (List.replicate 9 2) 1 0 false 1).2 4
      ≤ 3 / 2 := by
  decide

theorem clamp_bounds (v : ℚ) :
    0.01 ≤ (if 2.5 < (if v < 0.01 then 0.01 else v) then 2.5
      else (if v < 0.01 then 0.01 else v)) ∧
    (if 2.5 < (if v < 0.01 then 0.01 else v) then 2.5
      else (if v < 0.01 then 0.01 else v)) ≤ 2.5 := by
  split_ifs <;> exact ⟨by linarith, by linarith⟩

theorem smoothTerrain_interior_bounds (s : ErosionState) (terrain : List ℚ)
    (dt : ℚ) (i : Nat) (hi : i < terrain.length)
    (hint : ¬(i % s.width ≤ 0 ∨ s.width - 1 ≤ i % s.width ∨
      i / s.width ≤ 0 ∨ s.height - 1 ≤ i / s.width)) :
    0.01 ≤ fget (smoothTerrain s terrain dt) i ∧
    fget (smoothTerrain s terrain dt) i ≤ 2.5 := by
  simp only [smoothTerrain]
  rw [fget_buildField, if_pos hi, if_neg hint]
  exact clamp_bounds _

/-- C3 (amended): after every simulate call the terrain height of every
interior cell lies in [minH, maxH] with minH = 0.01 and maxH = 2.5: the
code clamps erosion, deposition and smoothing to 2.5, not to the 1.5 the
claim names (the final smoothing pass clamps every interior cell). -/
theorem terrain_range (s : ErosionState) (terrain : List ℚ)
    (dt flowRate : ℚ) (isRaining : Bool) (mult : ℚ) (i : Nat)
    (hlen : terrain.length = s.width * s.height)
    (hx0 : 0 < i % s.width) (hx1 : i % s.width < s.width - 1)
    (hy0 : 0 < i / s.width) (hy1 : i / s.width < s.height - 1) :
    0.01 ≤ fget (simulate s terrain dt flowRate isRaining mult).2 i ∧
    fget (simulate s terrain dt flowRate isRaining mult).2 i ≤ 2.5 := by
  rw [simulate_terrain]
  set s3 := updateWaterAndVelocity
    (computeFlux (addWater s dt flowRate isRaining) terrain dt) dt with hs3
  set s6 := evaporate (transportSediment
    (erosionDeposition s3 terrain dt mult).1 dt) dt with hs6
  have hw6 : s6.width = s.width := by simp [hs6, hs3]
  have hh6 : s6.height = s.height := by simp [hs6, hs3]
  have hlen4 : (erosionDeposition s3 terrain dt mult).2.length =
      s.width * s.height := by
    rw [erosionTerrain_length, hlen]
  have hw : 0 < s.width := by
    rcases Nat.eq_zero_or_pos s.width with h0 | h0
    · rw [h0] at hx1
      omega
    · exact h0
  apply smoothTerrain_interior_bounds
  · rw [hlen4]
    have hdivlt : i / s.width < s.height :=
      Nat.lt_of_lt_of_le hy1 (Nat.sub_le _ _)
    exact ((Nat.div_lt_iff_lt_mul hw).mp hdivlt).trans_eq (Nat.mul_comm _ _)
  · rw [hw6, hh6]
    intro hcon
    rcases hcon with h | h | h | h
    · exact absurd (lt_of_lt_of_le hx0 h) (lt_irrefl 0)
    · exact absurd (lt_of_lt_of_le hx1 h) (lt_irrefl _)
    · exact absurd (lt_of_lt_of_le hy0 h) (lt_irrefl 0)
    · exact absurd (lt_of_lt_of_le hy1 h) (lt_irrefl _)

/-- Witness for the amended C3: the interior cell 4 of a 3x3 grid is
within [0.01, 2.5] after a call. -/
theorem terrain_range_witness :
    0.01 ≤ fget (simulate (mkState 3 3) (List.replicate 9 1) 1 1 true 1).2 4
      ∧
    fget (simulate (mkState 3 3) (List.replicate 9 1) 1 1 true 1).2 4
      ≤ 2.5 :=
  terrain_range (mkState 3 3) (List.replicate 9 1) 1 1 true 1 4 (by decide)
    (by decide) (by decide) (by decide) (by decide)

/-! ### C5: dry idempotence -/

theorem min_one_zero : min (1 : ℚ) 0 = 0 := by norm_num

theorem four_nonneg_sum_nonpos {a b c d : ℚ} (ha : 0 ≤ a) (hb : 0 ≤ b)
    (hc : 0 ≤ c) (hd : 0 ≤ d) (h : ¬ 0 < a + b + c + d) :
    (a, b, c, d) = ((0 : ℚ), (0 : ℚ), (0 : ℚ), (0 : ℚ)) := by
  have h1 : a = 0 := by linarith
  have h2 : b = 0 := by linarith
  have h3 : c = 0 := by linarith
  have h4 : d = 0 := by linarith
  simp [h1, h2, h3, h4]

theorem fluxCell_water_zero (s1 : ErosionState) (terrain : List ℚ)
    (dt : ℚ) (i : Nat) (hw : ∀ x ∈ s1.waterHeight, x = 0) :
    fluxCell s1 terrain dt i = (0, 0, 0, 0) := by
  have hwi : fget s1.waterHeight i = 0 := fget_eq_zero _ _ hw
  simp only [fluxCell]
  split_ifs with hskip hsum
  · rfl
  · rw [hwi]
    simp [min_one_zero]
  · exact four_nonneg_sum_nonpos (le_max_left _ _) (le_max_left _ _)
      (le_max_left _ _) (le_max_left _ _) hsum

theorem computeFlux_flux_zero (s1 : ErosionState) (terrain : List ℚ)
    (dt : ℚ) (hw : ∀ x ∈ s1.waterHeight, x = 0) :
    (∀ j, fget (computeFlux s1 terrain dt).fluxL j = 0) ∧
    (∀ j, fget (computeFlux s1 terrain dt).fluxR j = 0) ∧
    (∀ j, fget (computeFlux s1 terrain dt).fluxT j = 0) ∧
    (∀ j, fget (computeFlux s1 terrain dt).fluxB j = 0) := by
  refine ⟨fun j => ?_, fun j => ?_, fun j => ?_, fun j => ?_⟩
  · rw [computeFlux_fluxL, fget_buildField]
    split_ifs with hj
    · rw [fluxCell_water_zero s1 terrain dt j hw]
    · rfl
  · rw [computeFlux_fluxR, fget_buildField]
    split_ifs with hj
    · rw [fluxCell_water_zero s1 terrain dt j hw]
    · rfl
  · rw [computeFlux_fluxT, fget_buildField]
    split_ifs with hj
    · rw [fluxCell_water_zero s1 terrain dt j hw]
    · rfl
  · rw [computeFlux_fluxB, fget_buildField]
    split_ifs with hj
    · rw [fluxCell_water_zero s1 terrain dt j hw]
    · rfl

theorem updateCell_water_zero (s2 : ErosionState) (dt : ℚ) (i : Nat)
    (hwi : fget s2.waterHeight i = 0)
    (hfL : ∀ j, fget s2.fluxL j = 0) (hfR : ∀ j, fget s2.fluxR j = 0)
    (hfT : ∀ j, fget s2.fluxT j = 0) (hfB : ∀ j, fget s2.fluxB j = 0) :
    (updateCell s2 dt i).1 = 0 := by
  simp only [updateCell, hfL, hfR, hfT, hfB, hwi]
  norm_num

/-- One dry step: with no rain and an all-zero water field, simulate
returns an all-zero water field, for any dt, flow rate and multiplier. -/
theorem simulate_dry_water_zero (s : ErosionState) (terrain : List ℚ)
    (dt flowRate mult : ℚ) (hw : ∀ x ∈ s.waterHeight, x = 0) :
    ∀ x ∈ (simulate s terrain dt flowRate false mult).1.waterHeight,
      x = 0 := by
  rw [simulate_state, addWater_not_raining]
  obtain ⟨hfL, hfR, hfT, hfB⟩ := computeFlux_flux_zero s terrain dt hw
  have hw3 : ∀ x ∈ (updateWaterAndVelocity (computeFlux s terrain dt)
      dt).waterHeight, x = 0 := by
    rw [updateWater_waterHeight]
    refine forall_mem_buildField (fun i hi => ?_)
    refine updateCell_water_zero _ dt i ?_ hfL hfR hfT hfB
    exact fget_eq_zero _ _ (by simpa using hw)
  have hw5 : ∀ x ∈ (transportSediment (erosionDeposition
      (updateWaterAndVelocity (computeFlux s terrain dt) dt) terrain dt
      mult).1 dt).waterHeight, x = 0 := by
    simpa using hw3
  have hw6 : ∀ x ∈ (evaporate (transportSediment (erosionDeposition
      (updateWaterAndVelocity (computeFlux s terrain dt) dt) terrain dt
      mult).1 dt) dt).waterHeight, x = 0 := by
    simp only [evaporate]
    refine forall_mem_buildField (fun i hi => ?_)
    rw [fget_eq_zero _ i hw5]
    norm_num
  simp only [applyOpenBoundary]
  refine forall_mem_buildField (fun i hi => ?_)
  split_ifs with hc
  · rfl
  · exact fget_eq_zero _ i hw6

/-- C5: if it is not raining and the water field is entirely zero, then
after any number of simulate calls (each with dt >= 0, any flow rate,
any multiplier, any persisted flux, velocity and sediment state) the
water field is still entirely zero. -/
theorem dry_idempotence (s : ErosionState) (terrain : List ℚ)
    (ps : List (ℚ × ℚ × Bool × ℚ))
    (hps : ∀ p ∈ ps, p.2.2.1 = false ∧ 0 ≤ p.1)
    (hw : ∀ x ∈ s.waterHeight, x = 0) :
    ∀ x ∈ (runSeq (s, terrain) ps).1.waterHeight, x = 0 := by
  induction ps generalizing s terrain with
  | nil => exact hw
  | cons p rest ih =>
    have hp := hps p (List.mem_cons_self p rest)
    have hstep := simulate_dry_water_zero s terrain p.1 p.2.1 p.2.2.2 hw
    rw [← hp.1] at hstep
    show ∀ x ∈ (runSeq (simulate s terrain p.1 p.2.1 p.2.2.1 p.2.2.2)
      rest).1.waterHeight, x = 0
    exact ih (simulate s terrain p.1 p.2.1 p.2.2.1 p.2.2.2).1
      (simulate s terrain p.1 p.2.1 p.2.2.1 p.2.2.2).2
      (fun q hq => hps q (List.mem_cons_of_mem _ hq)) hstep

/-- Witness for C5: after two dry calls on a 3x3 engine the water at
the interior cell 4 is still zero. -/
theorem dry_idempotence_witness :
    fget (runSeq (mkState 3 3, List.replicate 9 1)
      [(1, 1/2, false, 1), (2, 1, false, 1)]).1.waterHeight 4 = 0 :=
  fget_eq_zero _ _ (dry_idempotence (mkState 3 3) (List.replicate 9 1)
    [(1, 1/2, false, 1), (2, 1, false, 1)] (by decide) (by decide))

/-! ### C2: non-negativity of water and sediment -/

theorem fget_nonneg (l : List ℚ) (i : Nat) (h : ∀ x ∈ l, 0 ≤ x) :
    0 ≤ fget l i :=
  @fget_prop (fun x => 0 ≤ x) l i le_rfl h

theorem bilinear_nonneg (v00 v10 v01 v11 ax ay : ℚ) (h00 : 0 ≤ v00)
    (h10 : 0 ≤ v10) (h01 : 0 ≤ v01) (h11 : 0 ≤ v11) (hax0 : 0 ≤ ax)
    (hax1 : ax ≤ 1) (hay0 : 0 ≤ ay) (hay1 : ay ≤ 1) :
    0 ≤ (v00 * (1 - ax) + v10 * ax) * (1 - ay) +
      (v01 * (1 - ax) + v11 * ax) * ay := by
  have h0 : 0 ≤ (v00 * (1 - ax) + v10 * ax) * (1 - ay) :=
    mul_nonneg (add_nonneg (mul_nonneg h00 (by linarith))
      (mul_nonneg h10 hax0)) (by linarith)
  have h1 : 0 ≤ (v01 * (1 - ax) + v11 * ax) * ay :=
    mul_nonneg (add_nonneg (mul_nonneg h01 (by linarith))
      (mul_nonneg h11 hax0)) hay0
  linarith

theorem sampleBilinear_nonneg (w h : Nat) (l : List ℚ) (x y : ℚ)
    (hl : ∀ v ∈ l, 0 ≤ v) : 0 ≤ sampleBilinear w h l x y := by
  simp only [sampleBilinear]
  split_ifs with hc
  · exact le_refl 0
  · refine bilinear_nonneg _ _ _ _ _ _ (fget_nonneg _ _ hl)
      (fget_nonneg _ _ hl) (fget_nonneg _ _ hl) (fget_nonneg _ _ hl)
      ?_ ?_ ?_ ?_
    · have := Int.floor_le x
      linarith
    · have := Int.lt_floor_add_one x
      linarith
    · have := Int.floor_le y
      linarith
    · have := Int.lt_floor_add_one y
      linarith

theorem erodeCell_sed_nonneg (w h : Nat) (vx vy : List ℚ) (dt m : ℚ)
    (hdt : 0 ≤ dt) (hm : 0 ≤ m) (acc : List ℚ × List ℚ) (i : Nat)
    (hsed : ∀ x ∈ acc.2, 0 ≤ x) :
    ∀ x ∈ (erodeCell w h vx vy dt m acc i).2, 0 ≤ x := by
  simp only [erodeCell]
  split_ifs with h1 h2 h3 h4
  · exact hsed
  · intro x hx
    rcases List.mem_or_eq_of_mem_set hx with hmem | heq
    · exact hsed x hmem
    · subst heq
      refine add_nonneg (fget_nonneg _ _ hsed) (le_min ?_ (by norm_num))
      refine mul_nonneg (mul_nonneg (mul_nonneg ?_ ?_) hdt) hm
      · norm_num [KS]
      · rw [sub_nonneg]
        exact h2.le
  · intro x hx
    rcases List.mem_or_eq_of_mem_set hx with hmem | heq
    · exact hsed x hmem
    · subst heq
      refine add_nonneg (fget_nonneg _ _ hsed) (le_min ?_ (by norm_num))
      refine mul_nonneg (mul_nonneg (mul_nonneg ?_ ?_) hdt) hm
      · norm_num [KS]
      · rw [sub_nonneg]
        exact h2.le
  · intro x hx
    rcases List.mem_or_eq_of_mem_set hx with hmem | heq
    · exact hsed x hmem
    · subst heq
      rw [sub_nonneg]
      exact (min_le_left _ _).trans (min_le_right _ _)
  · intro x hx
    rcases List.mem_or_eq_of_mem_set hx with hmem | heq
    · exact hsed x hmem
    · subst heq
      rw [sub_nonneg]
      exact (min_le_left _ _).trans (min_le_right _ _)

theorem erosion_sed_nonneg (s3 : ErosionState) (terrain : List ℚ)
    (dt m : ℚ) (hdt : 0 ≤ dt) (hm : 0 ≤ m)
    (hsed : ∀ x ∈ s3.sediment, 0 ≤ x) :
    ∀ x ∈ (erosionDeposition s3 terrain dt m).1.sediment, 0 ≤ x := by
  rw [erosionDeposition_sediment]
  exact foldl_invariant (fun acc : List ℚ × List ℚ => ∀ x ∈ acc.2, 0 ≤ x)
    _ _ _
    (fun acc j hacc => erodeCell_sed_nonneg _ _ _ _ _ _ hdt hm acc j hacc)
    hsed

theorem transport_sed_nonneg (s4 : ErosionState) (dt : ℚ)
    (hsed : ∀ x ∈ s4.sediment, 0 ≤ x) :
    ∀ x ∈ (transportSediment s4 dt).sediment, 0 ≤ x := by
  simp only [transportSediment]
  refine forall_mem_buildField (fun i hi => ?_)
  split_ifs with hb
  · exact fget_nonneg _ _ hsed
  · exact sampleBilinear_nonneg _ _ _ _ _ hsed

theorem evaporate_water_nonneg (s5 : ErosionState) (dt : ℚ) :
    ∀ x ∈ (evaporate s5 dt).waterHeight, 0 ≤ x := by
  simp only [evaporate]
  refine forall_mem_buildField (fun i hi => ?_)
  split_ifs with hc
  · exact le_refl 0
  · push_neg at hc
    linarith

theorem boundary_water_nonneg (s6 : ErosionState)
    (hw : ∀ x ∈ s6.waterHeight, 0 ≤ x) :
    ∀ x ∈ (applyOpenBoundary s6).waterHeight, 0 ≤ x := by
  simp only [applyOpenBoundary]
  refine forall_mem_buildField (fun i hi => ?_)
  split_ifs with hc
  · exact le_refl 0
  · exact fget_nonneg _ _ hw

theorem boundary_sed_nonneg (s6 : ErosionState)
    (hs : ∀ x ∈ s6.sediment, 0 ≤ x) :
    ∀ x ∈ (applyOpenBoundary s6).sediment, 0 ≤ x := by
  simp only [applyOpenBoundary]
  refine forall_mem_buildField (fun i hi => ?_)
  split_ifs with hc
  · exact le_refl 0
  · exact fget_nonneg _ _ hs

/-- One step of the amended C2: with dt >= 0 and a non-negative
erosion rate multiplier, a simulate call keeps sediment non-negative
and always returns non-negative water. -/
theorem simulate_nonneg_step (s : ErosionState) (terrain : List ℚ)
    (dt fr : ℚ) (ir : Bool) (mult : ℚ) (hdt : 0 ≤ dt) (hm : 0 ≤ mult)
    (hsed : ∀ x ∈ s.sediment, 0 ≤ x) :
    (∀ x ∈ (simulate s terrain dt fr ir mult).1.waterHeight, 0 ≤ x) ∧
    (∀ x ∈ (simulate s terrain dt fr ir mult).1.sediment, 0 ≤ x) := by
  rw [simulate_state]
  constructor
  · exact boundary_water_nonneg _ (evaporate_water_nonneg _ _)
  · refine boundary_sed_nonneg _ ?_
    rw [evaporate_sediment]
    refine transport_sed_nonneg _ _ ?_
    refine erosion_sed_nonneg _ _ _ _ hdt hm ?_
    simpa using hsed

set_option maxRecDepth 10000 in
/-- C2 counterexample: the claim quantifies over every
erosionRateMultiplier; with multiplier -1 (dt = 1, no rain, uniform
terrain 1 on a 3x12 grid starting from the zero state) the erosion step
adds a negative amount to sediment, and after one simulate call the
interior cell 4 holds sediment -3/1000 < 0. -/
theorem sediment_nonneg_counterexample :
    fget (simulate (mkState 3 12) (List.replicate 36 1) 1 0 false
      (-1)).1.sediment 4 < 0 := by
  decide

/-- C2 (amended): for every sequence of simulate calls each with
dt >= 0 and erosionRateMultiplier >= 0 (any flow rate, any raining
flag), starting from a state with non-negative water and sediment (as
in the freshly constructed engine), water and sediment stay
non-negative after every call.  The original claim fails for negative
multipliers. -/
theorem water_sediment_nonneg (s : ErosionState) (terrain : List ℚ)
    (ps : List (ℚ × ℚ × Bool × ℚ))
    (hps : ∀ p ∈ ps, 0 ≤ p.1 ∧ 0 ≤ p.2.2.2)
    (hw : ∀ x ∈ s.waterHeight, 0 ≤ x)
    (hsed : ∀ x ∈ s.sediment, 0 ≤ x) :
    (∀ x ∈ (runSeq (s, terrain) ps).1.waterHeight, 0 ≤ x) ∧
    (∀ x ∈ (runSeq (s, terrain) ps).1.sediment, 0 ≤ x) := by
  induction ps generalizing s terrain with
  | nil => exact ⟨hw, hsed⟩
  | cons p rest ih =>
    have hp := hps p (List.mem_cons_self p rest)
    have hstep := simulate_nonneg_step s terrain p.1 p.2.1 p.2.2.1 p.2.2.2
      hp.1 hp.2 hsed
    show (∀ x ∈ (runSeq (simulate s terrain p.1 p.2.1 p.2.2.1 p.2.2.2)
        rest).1.waterHeight, 0 ≤ x) ∧
      (∀ x ∈ (runSeq (simulate s terrain p.1 p.2.1 p.2.2.1 p.2.2.2)
        rest).1.sediment, 0 ≤ x)
    exact ih (simulate s terrain p.1 p.2.1 p.2.2.1 p.2.2.2).1
      (simulate s terrain p.1 p.2.1 p.2.2.1 p.2.2.2).2
      (fun q hq => hps q (List.mem_cons_of_mem _ hq)) hstep.1 hstep.2

/-- Witness for the amended C2: after two raining calls on a 3x12
engine, cell 4 has non-negative water and sediment. -/
theorem water_sediment_nonneg_witness :
    0 ≤ fget (runSeq (mkState 3 12, List.replicate 36 1)
      [(1, 1/2, true, 1), (2, 1, true, 0)]).1.waterHeight 4 ∧
    0 ≤ fget (runSeq (mkState 3 12, List.replicate 36 1)
      [(1, 1/2, true, 1), (2, 1, true, 0)]).1.sediment 4 :=
  ⟨fget_nonneg _ _ (water_sediment_nonneg (mkState 3 12)
      (List.replicate 36 1) [(1, 1/2, true, 1), (2, 1, true, 0)]
      (by decide) (by decide) (by decide)).1,
   fget_nonneg _ _ (water_sediment_nonneg (mkState 3 12)
      (List.replicate 36 1) [(1, 1/2, true, 1), (2, 1, true, 0)]
      (by decide) (by decide) (by decide)).2⟩

/-! ### C8: the 8x8 decay scenario -/

/-- On any grid with at most 10 rows the drainage zone covers every
row, so every simulate call ends with an identically zero water field. -/
theorem simulate_water_zero_of_small_grid (s : ErosionState)
    (terrain : List ℚ) (dt fr : ℚ) (ir : Bool) (mult : ℚ)
    (hh : s.height ≤ 10) :
    ∀ x ∈ (simulate s terrain dt fr ir mult).1.waterHeight, x = 0 := by
  rw [simulate_state]
  set s6 := evaporate (transportSediment
    (erosionDeposition (updateWaterAndVelocity
      (computeFlux (addWater s dt fr ir) terrain dt) dt) terrain dt mult).1
    dt) dt with hs6
  have hwd : s6.width = s.width := by simp [hs6]
  have hht : s6.height = s.height := by simp [hs6]
  have hlen : s6.waterHeight.length = s.width * s.height := by
    simp [hs6, evaporate, length_buildField]
  simp only [applyOpenBoundary]
  refine forall_mem_buildField (fun i hi0 => ?_)
  rw [hwd, hht]
  have hi : i < s.width * s.height := hlen ▸ hi0
  have hw0 : 0 < s.width := by
    rcases Nat.eq_zero_or_pos s.width with h0 | h0
    · rw [h0] at hi
      simp at hi
    · exact h0
  rw [if_pos (Or.inr ⟨(Nat.div_lt_iff_lt_mul hw0).mpr
    (hi.trans_eq (Nat.mul_comm _ _)), le_trans hh (Nat.le_add_left 10 _)⟩)]

/-- C8 (amended): on the 8x8 scenario grid the 10 drainage rows cover
all 8 rows, so every simulate call (raining or not, any dt) ends with
the water field identically zero.  In the scenario with waterHeight 0.5
everywhere the water is exactly zero after a single call rather than
decaying geometrically by (1 - KE*dt) per step. -/
theorem eight_by_eight_water_zero (s : ErosionState) (terrain : List ℚ)
    (dt fr : ℚ) (ir : Bool) (mult : ℚ) (_hw : s.width = 8)
    (hh : s.height = 8) :
    ∀ x ∈ (simulate s terrain dt fr ir mult).1.waterHeight, x = 0 :=
  simulate_water_zero_of_small_grid s terrain dt fr ir mult
    (by rw [hh]; norm_num)

/-- Witness for the amended C8: on a freshly constructed 8x8 engine the
water at cell 27 is zero after a raining call. -/
theorem eight_by_eight_water_zero_witness :
    fget (simulate (mkState 8 8) (List.replicate 64 1) 1 (1/2) true
      1).1.waterHeight 27 = 0 :=
  fget_eq_zero _ _ (eight_by_eight_water_zero (mkState 8 8)
    (List.replicate 64 1) 1 (1/2) true 1 rfl rfl)

/-- C8 counterexample: 8x8 grid prepopulated with waterHeight 0.5
everywhere, uniform terrain 1, isRaining = false, dt = 8.  The claim
predicts waterHeight 0.5 * (1 - KE*dt) = 2/5 at every cell after one
call; the code gives 0 at cell 27 (and every cell), because the
drainage rows cover the whole 8-row grid. -/
theorem geometric_decay_counterexample :
    fget (simulate
      { mkState 8 8 with waterHeight := List.replicate 64 (1/2) }
      (List.replicate 64 1) 8 (1/2) false 1).1.waterHeight 27 = 0 ∧
    (1/2 : ℚ) * (1 - KE * 8) ≠ 0 := by
  constructor
  · exact fget_eq_zero _ _ (simulate_water_zero_of_small_grid
      { mkState 8 8 with waterHeight := List.replicate 64 (1/2) }
      (List.replicate 64 1) 8 (1/2) false 1 (by decide))
  · norm_num [KE]

set_option maxRecDepth 10000 in
/-- C9 counterexample: start from 0.5 water at cell (1,5) of a 3x12
grid (uniform terrain 1, everything else zero) and run one call with
dt = 1, no rain.  Cell (1,6), index 19, receives flux, so phase 3 sets
its velocityY to 49/100, and phase 8 zeroes its water because it lies
in a drainage row.  After the call it has waterHeight 0 but velocityY
not 0, refuting the claim that velocity is zero wherever water is. -/
theorem velocity_dry_counterexample :
    fget (simulate { mkState 3 12 with
        waterHeight := (List.replicate 36 (0 : ℚ)).set 16 (1/2) }
      (List.replicate 36 1) 1 0 false 1).1.waterHeight 19 = 0 ∧
    fget (simulate { mkState 3 12 with
        waterHeight := (List.replicate 36 (0 : ℚ)).set 16 (1/2) }
      (List.replicate 36 1) 1 0 false 1).1.velocityY 19 ≠ 0 := by
  decide

end StreamTrailer
